import Mathlib

/-
Verification of the natural-language specification of the ultrasound
kidney-segmentation backend (FastAPI service: main.py, model_service.py,
utils.py) against the code, by a shallow embedding in Lean 4.

Conventions of the embedding:
- numpy uint8 samples are Nat values; machine floats are idealised as
  rationals or reals where the code computes with them;
- a Python call that raises maps to Except.error, a normal return to
  Except.ok;
- array shapes are modelled explicitly (NpShape); pixel contents, where a
  claim needs them, are total functions from indices to sample values;
- external library behaviour that the code relies on (PIL fromarray
  mode selection, torchvision Normalize broadcasting, numpy assignment
  broadcasting, cv2 channel swaps) is embedded according to the documented
  behaviour of those libraries, noted at each definition.
-/

namespace KidneySeg

/-- Shape of a numpy array as produced by the decode paths: a 2-D
grayscale array or a 3-D array with a channel axis. -/
inductive NpShape where
  | d2 (h w : Nat)
  | d3 (h w c : Nat)
  deriving DecidableEq, Repr

/-- Spatial dimensions of an array, as the code takes them with
original_shape[:2]. -/
def spatial : NpShape → Nat × Nat
  | .d2 h w => (h, w)
  | .d3 h w _ => (h, w)

/-- ModelService.image_height (model_service.py line 28). -/
def image_height : Nat := 560

/-- ModelService.image_width (model_service.py line 29). -/
def image_width : Nat := 690

/-- Channel count that PIL Image.fromarray assigns to a uint8 array, per
the PIL typemap: 2-D maps to mode L (1 channel), (h,w,2) to LA, (h,w,3)
to RGB, (h,w,4) to RGBA; any other 3-D channel count raises TypeError
(in particular (h,w,1)). -/
def pilFromarrayChannels : NpShape → Except String Nat
  | .d2 _ _ => .ok 1
  | .d3 _ _ 2 => .ok 2
  | .d3 _ _ 3 => .ok 3
  | .d3 _ _ 4 => .ok 4
  | .d3 _ _ _ => .error ("PIL fromarray: cannot handle this data type")

/-- Shape behaviour of ModelService.preprocess_image (model_service.py
lines 73 to 93): cv2.cvtColor BGR2RGB is applied only when the array is
3-D with 3 channels and preserves the shape; Image.fromarray fixes the
channel count; transforms.Resize((560,690)) keeps the mode and sets the
spatial dims; transforms.ToTensor yields a (c,560,690) tensor;
transforms.Normalize(mean=[0,0,0], std=[1,1,1]) views its mean as a
(3,1,1) tensor and subtracts in place, which raises unless the tensor has
exactly 3 channels; unsqueeze(0) prepends a batch axis. -/
def preprocess_image_shape (s : NpShape) : Except String (List Nat) :=
  match pilFromarrayChannels s with
  | .error e => .error e
  | .ok c =>
    if c = 3 then .ok [1, c, image_height, image_width]
    else .error ("Normalize: in-place subtract of a 3-channel mean does not broadcast")

/-- numpy squeeze: drops every axis of size 1 (model_service.py line 100). -/
def npSqueeze (s : List Nat) : List Nat := s.filter (fun d => d != 1)

/-- Shape behaviour of ModelService.postprocess_output (model_service.py
lines 95 to 113): sigmoid and uint8 conversion keep the shape; squeeze
drops singleton axes; if original_shape[:2] differs from the squeezed
mask shape, cv2.resize to (original w, original h) runs, which raises on
an empty target and otherwise returns an (h,w) array. The Bool in the
result records whether the resize branch ran. -/
def postprocess_output_shape (scores : List Nat) (original : NpShape) :
    Except String ((Nat × Nat) × Bool) :=
  match npSqueeze scores with
  | [mh, mw] =>
    if spatial original ≠ (mh, mw) then
      if 0 < (spatial original).1 ∧ 0 < (spatial original).2 then
        .ok (((spatial original).1, (spatial original).2), true)
      else .error ("cv2 resize: empty target size")
    else .ok ((mh, mw), false)
  | _ => .error ("cv2 resize: unsupported array dimensionality")

/-- Shape behaviour of ModelService.overlay_mask (model_service.py lines
115 to 133): a 3-D mask is first flattened by cv2.cvtColor BGR2GRAY,
which requires 3 or 4 channels; np.zeros_like(image) copies the image
shape; the slice assignment into channel 1 raises IndexError on a 2-D
image or a channel axis shorter than 2, and otherwise follows numpy
broadcasting: the 2-D mask source must have each dimension equal to the
target spatial dimension or equal to 1; cv2.addWeighted of two same-shape
buffers returns that shape. -/
def overlay_mask_shape (image mask : NpShape) : Except String NpShape :=
  match
    (match mask with
     | .d2 h w => Except.ok (h, w)
     | .d3 h w c =>
       if c = 3 ∨ c = 4 then Except.ok (h, w)
       else Except.error ("cvtColor BGR2GRAY: invalid number of channels")) with
  | .error e => .error e
  | .ok (mh, mw) =>
    match image with
    | .d2 _ _ => .error ("IndexError: too many indices for 2-D array")
    | .d3 ih iw ic =>
      if ic ≤ 1 then .error ("IndexError: channel index 1 out of bounds")
      else if (mh = ih ∨ mh = 1) ∧ (mw = iw ∨ mw = 1) then .ok (.d3 ih iw ic)
      else .error ("could not broadcast input array")

/-- One entry of the dict returned by ModelService.process_image. -/
inductive RVal where
  | maskV (dims : Nat × Nat)
  | overlayV (s : NpShape)
  | timeV
  deriving DecidableEq, Repr

/-- Shape behaviour of ModelService.process_image (model_service.py lines
135 to 173): preprocess, model forward pass (the model is the external
inference engine, a parameter here), postprocess against the original
shape, overlay onto the original image; any raise propagates; on success
the literal dict with the keys mask, overlay, processing_time is
returned. -/
def process_image (infer : List Nat → Except String (List Nat))
    (image : NpShape) : Except String (List (String × RVal)) :=
  match preprocess_image_shape image with
  | .error e => .error e
  | .ok inputShape =>
    match infer inputShape with
    | .error e => .error e
    | .ok outputShape =>
      match postprocess_output_shape outputShape image with
      | .error e => .error e
      | .ok maskResult =>
        match overlay_mask_shape image (.d2 maskResult.1.1 maskResult.1.2) with
        | .error e => .error e
        | .ok overlayShape =>
          .ok [("mask", RVal.maskV maskResult.1),
               ("overlay", RVal.overlayV overlayShape),
               ("processing_time", RVal.timeV)]

instance {ε α : Type} [DecidableEq ε] [DecidableEq α] : DecidableEq (Except ε α) :=
  fun x y =>
    match x, y with
    | .ok a, .ok b => decidable_of_iff (a = b) (by simp)
    | .error a, .error b => decidable_of_iff (a = b) (by simp)
    | .ok _, .error _ => .isFalse (fun hc => by cases hc)
    | .error _, .ok _ => .isFalse (fun hc => by cases hc)

/-- Inbound WebSocket text message of the streaming session, classified by
the branch of websocket_endpoint (main.py lines 144 to 204) it reaches:
badJson models text that makes json.loads raise; jsonNonObj models text
that is valid JSON but not an object (for example the message null), on
which frame_data.get raises AttributeError; objNoImage models an object
whose image entry is absent or falsy; objFrame carries the outcome of the
guarded block (data-URL strip, base64 decode, pipeline run, encode): ok
with the encoded mask, encoded overlay and processing time, or error with
the exception text. -/
inductive InMsg where
  | badJson
  | jsonNonObj
  | objNoImage
  | objFrame (outcome : Except String (String × String × Nat))
  deriving DecidableEq, Repr

/-- One JSON response sent over the WebSocket; absent keys are none. -/
structure WsResponse where
  success : Bool
  error : Option String
  frame_number : Option Nat
  segmentation_mask : Option String
  overlay : Option String
  processing_time : Option Nat
  deriving DecidableEq, Repr

/-- Effect of handling one received message: either a response is sent and
the loop continues, or an exception escapes the per-frame handling and
propagates to the outer handler, ending the session. -/
inductive StepEffect where
  | reply (r : WsResponse)
  | crash (e : String)
  deriving DecidableEq, Repr

/-- Per-message handling of websocket_endpoint (main.py lines 151 to 204),
with frame_count already incremented for this message: a JSON parse error
is answered without a frame_number (lines 155 to 158); a non-object JSON
value makes frame_data.get raise AttributeError outside every inner try
(line 162); a missing or falsy image entry is answered without a
frame_number (lines 165 to 168); a failure inside the guarded block is
answered with Processing failed and the frame_number (lines 198 to 204);
success is answered with mask, overlay, processing_time and frame_number
(lines 187 to 195). -/
def handle_frame (frame_count : Nat) (m : InMsg) : StepEffect :=
  match m with
  | .badJson =>
    .reply { success := false, error := some ("Invalid JSON data"),
             frame_number := none, segmentation_mask := none,
             overlay := none, processing_time := none }
  | .jsonNonObj => .crash ("AttributeError: get on a non-dict JSON value")
  | .objNoImage =>
    .reply { success := false, error := some ("No image data provided"),
             frame_number := none, segmentation_mask := none,
             overlay := none, processing_time := none }
  | .objFrame (.error e) =>
    .reply { success := false, error := some ("Processing failed: " ++ e),
             frame_number := some frame_count, segmentation_mask := none,
             overlay := none, processing_time := none }
  | .objFrame (.ok (m64, o64, t)) =>
    .reply { success := true, error := none,
             frame_number := some frame_count, segmentation_mask := some m64,
             overlay := some o64, processing_time := some t }

/-- Observable outcome of one streaming session: the responses sent in
order, the final frame_count, and whether the loop was ended by an
uncaught processing exception (crashed = true) rather than by the
transport disconnect that ends the message list. -/
structure SessionTrace where
  responses : List WsResponse
  frame_count : Nat
  crashed : Bool
  deriving DecidableEq, Repr

/-- The receive loop of websocket_endpoint (main.py lines 144 to 211):
frame_count is incremented as each message is received (line 148), the
message is handled, and the loop continues until the client disconnects
(end of the message list) or an exception escapes per-frame handling and
reaches the outer except, which ends the session. -/
def run_session (frame_count : Nat) : List InMsg → SessionTrace
  | [] => ⟨[], frame_count, false⟩
  | m :: rest =>
    let c := frame_count + 1
    match handle_frame c m with
    | .crash _ => ⟨[], c, true⟩
    | .reply r =>
      let t := run_session c rest
      ⟨r :: t.responses, t.frame_count, t.crashed⟩

/-- Frame number that the amended claim C2 predicts for the response to a
message received as number c: present exactly for messages that reach the
guarded processing block. -/
def expected_frame_number (c : Nat) : InMsg → Option Nat
  | .objFrame _ => some c
  | _ => none

/-- Frame numbers the amended claim C2 predicts for the responses to a
list of messages whose reception starts at count c. -/
def expected_numbers (c : Nat) : List InMsg → List (Option Nat)
  | [] => []
  | m :: rest => expected_frame_number (c + 1) m :: expected_numbers (c + 1) rest

/-- State of the loaded ModelService as far as health_check reads it:
whether self.model is not None. After a successful __init__, _load_model
has assigned the UNET instance, so the field is true (model_service.py
lines 24 to 63). -/
structure ModelServiceState where
  modelLoaded : Bool
  deriving DecidableEq, Repr

/-- ModelService.__init__ via _load_model (model_service.py lines 37 to
63): constructing the UNET can raise (unetOk = false); if a checkpoint
file exists, loading it can raise (ckptOk = false); a missing checkpoint
only logs a warning and the untrained model is kept. Any raise propagates
out of __init__. -/
def modelService_init (unetOk ckptFound ckptOk : Bool) :
    Except String ModelServiceState :=
  if !unetOk then .error ("Failed to initialize UNET")
  else if ckptFound && !ckptOk then .error ("Failed to load checkpoint")
  else .ok ⟨true⟩

/-- startup_event (main.py lines 54 to 62): the global model_service is
assigned only when ModelService() returns; on a raise the global keeps
its previous value (None at module load). -/
def startup_event (init : Except String ModelServiceState)
    (prev : Option ModelServiceState) : Option ModelServiceState :=
  match init with
  | .ok s => some s
  | .error _ => prev

/-- Body of the health endpoint response. -/
structure HealthResponse where
  status : String
  model_loaded : Bool
  deriving DecidableEq, Repr

/-- health_check (main.py lines 68 to 73): status is always healthy and
model_loaded mirrors model_service is not None and model_service.model is
not None. -/
def health_check (model_service : Option ModelServiceState) : HealthResponse :=
  { status := "healthy",
    model_loaded := match model_service with
      | none => false
      | some s => s.modelLoaded }

/-- Pixel array at value level: a 2-D grayscale uint8 array or a
3-channel uint8 array, with total index functions for the samples. -/
inductive PixArr where
  | gray (h w : Nat) (pix : Nat → Nat → Nat)
  | rgb3 (h w : Nat) (pix : Nat → Nat → Fin 3 → Nat)

/-- Channel permutation performed by cv2.cvtColor with COLOR_BGR2RGB or
COLOR_RGB2BGR: channels 0 and 2 swap, channel 1 stays. -/
def swapRB : Fin 3 → Fin 3
  | 0 => 2
  | 1 => 1
  | 2 => 0

/-- Wire form produced by PNG encoding plus base64. Modelled from the
spec: section 1 treats the base64 and PNG codec as a black-box lossless
encode/decode capability, so the wire form is identified with the pixel
array that PIL decodes back from the bytes; the PNG library itself is not
in the repository. -/
structure PngB64 where
  decoded : PixArr

/-- encode_image_to_base64 (utils.py lines 10 to 31): a 3-D array is
converted BGR to RGB before PIL saves it as PNG; a 2-D array is saved as
mode L directly. -/
def encode_image_to_base64 (image : PixArr) : PngB64 :=
  match image with
  | .rgb3 h w p => ⟨.rgb3 h w (fun y x c => p y x (swapRB c))⟩
  | .gray h w p => ⟨.gray h w p⟩

/-- decode_base64_to_image (utils.py lines 33 to 53): the base64 is
decoded, PIL opens the PNG, and a 3-D 3-channel result is converted RGB
to BGR; a 2-D result is returned unchanged. -/
def decode_base64_to_image (s : PngB64) : PixArr :=
  match s.decoded with
  | .rgb3 h w p => .rgb3 h w (fun y x c => p y x (swapRB c))
  | .gray h w p => .gray h w p

/-- Logistic squashing applied by torch.sigmoid in postprocess_output. -/
noncomputable def sigmoid (x : ℝ) : ℝ := 1 / (1 + Real.exp (-x))

/-- Per-pixel value map of postprocess_output (model_service.py lines 99
to 103): torch.sigmoid, then (mask * 255).astype(np.uint8); numpy astype
truncates toward zero, which on the nonnegative sigmoid range is the
floor. -/
noncomputable def postprocessPixel (score : ℝ) : ℤ := ⌊sigmoid score * 255⌋

/-- Per-pixel value map as claim C5 and spec section 4.3 state it:
round(value * 255), rounding to nearest. -/
noncomputable def postprocessPixelSpec (score : ℝ) : ℤ := round (sigmoid score * 255)

/-- A 3-channel uint8 pixel array at value level, the case claim C4 is
about; the channel order is whatever the producing component left there,
which is exactly the ambiguity at issue. -/
structure ImgV where
  h : Nat
  w : Nat
  pix : Nat → Nat → Fin 3 → Nat

/-- A single-channel uint8 mask at value level. -/
structure MaskV where
  h : Nat
  w : Nat
  pix : Nat → Nat → Nat

/-- A resampling of uint8 planes: given the source dimensions and the
source plane, produce the resampled plane. The concrete PIL and cv2
interpolation kernels are external library code; the pipeline treats them
as a parameter, applied plane by plane, which is how PIL and cv2 filters
act on multi-channel data. -/
def ResampleFn : Type := Nat → Nat → (Nat → Nat → Nat) → Nat → Nat → Nat

/-- Value behaviour of ModelService.preprocess_image on a 3-channel
array (model_service.py lines 73 to 93): cv2.cvtColor BGR2RGB swaps
channels 0 and 2; transforms.Resize((560,690)) resamples each channel
plane; transforms.ToTensor scales uint8 samples by 1/255;
transforms.Normalize with mean [0,0,0] and std [1,1,1] leaves values
unchanged; the result is the batch-1 tensor, indexed here by channel,
row, column. -/
def preprocess_image_val (resizeCh : ResampleFn) (image : ImgV) :
    Fin 3 → Nat → Nat → ℚ :=
  fun c y x =>
    (resizeCh image.h image.w (fun v u => image.pix v u (swapRB c)) y x : ℚ) / 255

/-- Value behaviour of ModelService.postprocess_output (model_service.py
lines 95 to 109): each score passes through sigmoid, scaling by 255 and
uint8 truncation; if the original spatial dims differ from (560,690) the
uint8 mask is resampled by cv2.resize to the original dims. -/
noncomputable def postprocess_output_val (resizeMask : ResampleFn)
    (scores : Nat → Nat → ℝ) (oh ow : Nat) : MaskV :=
  let m : Nat → Nat → Nat := fun y x => (postprocessPixel (scores y x)).toNat
  if (oh, ow) = (image_height, image_width) then ⟨oh, ow, m⟩
  else ⟨oh, ow, resizeMask image_height image_width m⟩

/-- Value behaviour of ModelService.overlay_mask (model_service.py lines
115 to 133) on a 3-channel image and 2-D mask of the same dims: the
colored buffer is zero except for the mask in channel 1, and
cv2.addWeighted(image, 1 - alpha, colored, alpha, 0) rounds and
saturates each blended sample to uint8. -/
noncomputable def overlay_mask_val (image : ImgV) (mask : MaskV) (alpha : ℚ) : ImgV :=
  { h := image.h, w := image.w,
    pix := fun y x c =>
      let colored : Nat := if c = (1 : Fin 3) then mask.pix y x else 0
      min 255 (Int.toNat (round ((image.pix y x c : ℚ) * (1 - alpha) + (colored : ℚ) * alpha))) }

/-- Value behaviour of ModelService.process_image (model_service.py lines
135 to 173) on a 3-channel array: preprocess, forward pass of the
external model (a parameter), postprocess against the original dims,
overlay at the default alpha 0.5; the result is the pair of the mask and
the overlay from the returned dict. -/
noncomputable def process_image_val (resizeCh resizeMaskCh : ResampleFn)
    (infer : (Fin 3 → Nat → Nat → ℚ) → Nat → Nat → ℝ)
    (image : ImgV) : MaskV × ImgV :=
  let input := preprocess_image_val resizeCh image
  let output := infer input
  let mask := postprocess_output_val resizeMaskCh output image.h image.w
  let overlay := overlay_mask_val image mask (1 / 2)
  (mask, overlay)

/-- HTTP upload decode (main.py lines 100 to 102): np.array applied to
the PIL image; PIL decodes a 3-channel PNG or JPEG to RGB order and no
conversion is applied, so the pipeline receives exactly what PIL
decoded. The argument is the pixel array PIL yields from the shared
bytes. -/
def uploadDecode (decoded : ImgV) : ImgV := decoded

/-- Streaming decode (main.py line 179 via utils.decode_base64_to_image):
the PIL-decoded RGB array is converted RGB to BGR before the pipeline. -/
def wsDecode (decoded : ImgV) : ImgV :=
  ⟨decoded.h, decoded.w, fun y x c => decoded.pix y x (swapRB c)⟩

/-- Concrete resampling used to instantiate the counterexample for claim
C4: the identity on planes, a legitimate instance of the abstract
resampling parameter. -/
def c4Resize : ResampleFn := fun _ _ p => p

/-- Concrete inference engine used to instantiate the counterexample for
claim C4: the constant zero score map. -/
noncomputable def c4Infer : (Fin 3 → Nat → Nat → ℚ) → Nat → Nat → ℝ :=
  fun _ _ _ => 0

/-- Concrete 560 by 690 image for the counterexample of claim C4:
channel 0 holds 100 everywhere, channels 1 and 2 hold 0, so the red and
blue planes differ. -/
def c4Img : ImgV := ⟨560, 690, fun _ _ c => if c = 0 then 100 else 0⟩

/-- Concrete constant image with equal channel 0 and channel 2 planes,
for the witness of the amended claim C4. -/
def c4ImgRB : ImgV := ⟨560, 690, fun _ _ _ => 7⟩

/-- Concrete inference engine for exercising process_image: it accepts
any input shape and returns the contract output shape (1,1,560,690). -/
def c7Infer : List Nat → Except String (List Nat) := fun _ => .ok [1, 1, 560, 690]

theorem swapRB_involutive (c : Fin 3) : swapRB (swapRB c) = c := by
  fin_cases c <;> rfl

theorem sigmoid_pos (x : ℝ) : 0 < sigmoid x := by
  unfold sigmoid
  positivity

theorem sigmoid_lt_one (x : ℝ) : sigmoid x < 1 := by
  unfold sigmoid
  rw [div_lt_one (by positivity)]
  linarith [Real.exp_pos (-x)]

theorem sigmoid_mono {x y : ℝ} (h : x ≤ y) : sigmoid x ≤ sigmoid y := by
  unfold sigmoid
  have h1 : Real.exp (-y) ≤ Real.exp (-x) := Real.exp_le_exp.mpr (neg_le_neg h)
  have h2 : (0:ℝ) < 1 + Real.exp (-y) := by positivity
  exact one_div_le_one_div_of_le h2 (by linarith)

theorem sigmoid_zero : sigmoid 0 = 1 / 2 := by
  unfold sigmoid
  rw [neg_zero, Real.exp_zero]
  norm_num

theorem round_eq_floor_or_succ (x : ℝ) : round x = ⌊x⌋ ∨ round x = ⌊x⌋ + 1 := by
  rw [round_eq]
  have h1 : ⌊x⌋ ≤ ⌊x + 1/2⌋ := Int.floor_mono (by linarith)
  have h2 : ⌊x + 1/2⌋ ≤ ⌊x⌋ + 1 := by
    have h3 : ⌊x + 1/2⌋ ≤ ⌊x + 1⌋ := Int.floor_mono (by linarith)
    have h4 : ⌊x + (1:ℝ)⌋ = ⌊x⌋ + 1 := Int.floor_add_one x
    omega
  omega

/-- Claim C10: for every uint8 image that is 2-D grayscale or 3-channel,
decoding its encoding returns the image: the modelled PNG plus base64
codec is lossless and the RGB-to-BGR swap applied on decode exactly
inverts the BGR-to-RGB swap applied on encode. -/
theorem codec_round_trip (img : PixArr) :
    decode_base64_to_image (encode_image_to_base64 img) = img := by
  cases img with
  | gray h w p => rfl
  | rgb3 h w p =>
    show PixArr.rgb3 h w (fun y x c => p y x (swapRB (swapRB c))) = PixArr.rgb3 h w p
    have hp : (fun y x c => p y x (swapRB (swapRB c))) = p := by
      funext y x c
      rw [swapRB_involutive]
    rw [hp]

/-- Claim C9: GET /health always answers with status healthy and a
model_loaded flag that is false before startup and whenever the model
load attempt raised, and true after ModelService initialized
successfully. -/
theorem health_check_model_loaded (unetOk ckptFound ckptOk : Bool) :
    (∀ ms, (health_check ms).status = "healthy") ∧
    (health_check none).model_loaded = false ∧
    (∀ e, modelService_init unetOk ckptFound ckptOk = Except.error e →
      (health_check (startup_event (modelService_init unetOk ckptFound ckptOk) none)).model_loaded = false) ∧
    (∀ s, modelService_init unetOk ckptFound ckptOk = Except.ok s →
      (health_check (startup_event (modelService_init unetOk ckptFound ckptOk) none)).model_loaded = true) := by
  refine ⟨fun ms => rfl, rfl, ?_, ?_⟩ <;>
  · intro a ha
    revert ha
    cases unetOk <;> cases ckptFound <;> cases ckptOk <;>
      simp [modelService_init, startup_event, health_check]

theorem health_check_model_loaded_witness :
    (health_check (startup_event (modelService_init false true true) none)).model_loaded = false ∧
    (health_check (startup_event (modelService_init true true true) none)).model_loaded = true :=
  ⟨(health_check_model_loaded false true true).2.2.1 ("Failed to initialize UNET") rfl,
   (health_check_model_loaded true true true).2.2.2 ⟨true⟩ rfl⟩

/-- Claim C8: for the valid score shape (1,1,560,690) and any original
shape of positive area, postprocess_output yields a mask whose spatial
dims equal the original spatial dims, and when those dims already equal
(560,690) the resize branch does not run (flag false). -/
theorem postprocess_output_dims (os : NpShape)
    (hh : 0 < (spatial os).1) (hw : 0 < (spatial os).2) :
    postprocess_output_shape [1, 1, 560, 690] os =
      Except.ok (spatial os, decide (spatial os ≠ (560, 690))) := by
  have hs : npSqueeze [1, 1, 560, 690] = [560, 690] := rfl
  unfold postprocess_output_shape
  rw [hs]
  by_cases h : spatial os ≠ (560, 690)
  · simp [h, hh, hw]
  · push_neg at h
    simp [h]

theorem postprocess_output_dims_witness :
    postprocess_output_shape [1, 1, 560, 690] (NpShape.d3 100 200 3) =
      Except.ok ((100, 200), true) :=
  postprocess_output_dims (NpShape.d3 100 200 3) (by decide) (by decide)

/-- Claim C7: the frame pipeline is all-or-nothing: every successful
result of process_image carries exactly the keys mask, overlay and
processing_time, and any stage failure propagates the error so no
partial result is produced. -/
theorem process_image_all_or_nothing
    (infer : List Nat → Except String (List Nat)) (image : NpShape)
    (d : List (String × RVal)) (h : process_image infer image = Except.ok d) :
    d.map Prod.fst = ["mask", "overlay", "processing_time"] := by
  revert h
  unfold process_image
  split
  · intro h; cases h
  · split
    · intro h; cases h
    · split
      · intro h; cases h
      · split
        · intro h; cases h
        · intro h; cases h; rfl

theorem process_image_all_or_nothing_witness :
    ([(("mask" : String), RVal.maskV (560, 690)),
      ("overlay", RVal.overlayV (NpShape.d3 560 690 3)),
      ("processing_time", RVal.timeV)].map Prod.fst) =
      ["mask", "overlay", "processing_time"] :=
  process_image_all_or_nothing c7Infer (NpShape.d3 560 690 3) _ rfl

/-- Claim C6 counterexample: a (1,2) mask against a (2,2,3) image has
mismatched spatial dimensions, yet overlay_mask returns an overlay
instead of raising: numpy silently broadcasts the mask row. -/
theorem overlay_broadcast_no_error :
    overlay_mask_shape (NpShape.d3 2 2 3) (NpShape.d2 1 2) = Except.ok (NpShape.d3 2 2 3) ∧
    spatial (NpShape.d3 2 2 3) ≠ spatial (NpShape.d2 1 2) :=
  ⟨rfl, by decide⟩

/-- Amended claim C6: for a 3-channel image and a 2-D mask, overlay_mask
raises exactly when the mask is not numpy-broadcastable into the image
spatial dims (each mask dim equal to the image dim or equal to 1); a
broadcastable mask with different spatial dims is silently broadcast and
no error is raised. -/
theorem overlay_mask_error_iff_not_broadcastable (ih iw mh mw : Nat) :
    (((mh = ih ∨ mh = 1) ∧ (mw = iw ∨ mw = 1)) →
      overlay_mask_shape (NpShape.d3 ih iw 3) (NpShape.d2 mh mw) =
        Except.ok (NpShape.d3 ih iw 3)) ∧
    (¬((mh = ih ∨ mh = 1) ∧ (mw = iw ∨ mw = 1)) →
      overlay_mask_shape (NpShape.d3 ih iw 3) (NpShape.d2 mh mw) =
        Except.error ("could not broadcast input array")) := by
  constructor <;> intro h <;> simp [overlay_mask_shape, h]

theorem overlay_mask_error_iff_not_broadcastable_witness :
    overlay_mask_shape (NpShape.d3 2 2 3) (NpShape.d2 3 3) =
      Except.error ("could not broadcast input array") :=
  (overlay_mask_error_iff_not_broadcastable 2 2 3 3).2 (by decide)

/-- Claim C3 counterexample: a 4 by 4 single-channel grayscale uint8
image does not preprocess to a (1,3,560,690) tensor as the claim states;
the 3-element normalization mean cannot broadcast in place against the
1-channel tensor and preprocessing raises. -/
theorem preprocess_grayscale_fails :
    preprocess_image_shape (NpShape.d2 4 4) =
      Except.error ("Normalize: in-place subtract of a 3-channel mean does not broadcast") ∧
    preprocess_image_shape (NpShape.d2 4 4) ≠ Except.ok [1, 3, 560, 690] :=
  ⟨rfl, by decide⟩

/-- Amended claim C3: preprocess succeeds exactly on 3-channel images:
for every (h,w,3) uint8 image with positive dims it yields a tensor of
shape exactly (1,3,560,690) whatever the spatial resolution, while
single-channel (2-D grayscale) input fails at the 3-channel
normalization step instead of succeeding. -/
theorem preprocess_shape_three_channel (h w : Nat) (_hh : 0 < h) (_hw : 0 < w) :
    preprocess_image_shape (NpShape.d3 h w 3) = Except.ok [1, 3, 560, 690] ∧
    ∃ e, preprocess_image_shape (NpShape.d2 h w) = Except.error e :=
  ⟨rfl, ⟨_, rfl⟩⟩

theorem preprocess_shape_three_channel_witness :
    preprocess_image_shape (NpShape.d3 30 40 3) = Except.ok [1, 3, 560, 690] ∧
    ∃ e, preprocess_image_shape (NpShape.d2 30 40) = Except.error e :=
  preprocess_shape_three_channel 30 40 (by decide) (by decide)

/-- Claim C2 counterexample: the response to a malformed-JSON first
message carries no frame_number key at all, while the claim requires the
current frame_count 1 to be echoed in every response, including
responses to malformed-JSON messages. -/
theorem frame_number_missing_in_badjson_response :
    (run_session 0 [InMsg.badJson]).frame_count = 1 ∧
    (run_session 0 [InMsg.badJson]).responses.map (fun r => r.frame_number) = [none] :=
  ⟨rfl, rfl⟩

/-- Amended claim C2: frame_count increases by exactly 1 per received
message, including messages whose handling fails, and the current
frame_count is echoed as frame_number in success responses and in
responses to failures of the guarded processing block; responses to
malformed-JSON messages and to messages without image data carry no
frame_number. -/
theorem frame_count_and_frame_number_echo (count : Nat) (msgs : List InMsg)
    (hok : InMsg.jsonNonObj ∉ msgs) :
    (run_session count msgs).frame_count = count + msgs.length ∧
    (run_session count msgs).responses.map (fun r => r.frame_number) =
      expected_numbers count msgs := by
  induction msgs generalizing count with
  | nil => exact ⟨rfl, rfl⟩
  | cons m rest ih =>
    have hm : m ≠ InMsg.jsonNonObj := fun he => hok (he ▸ List.mem_cons_self m rest)
    have hrest : InMsg.jsonNonObj ∉ rest := fun hr => hok (List.mem_cons_of_mem m hr)
    obtain ⟨ih1, ih2⟩ := ih (count + 1) hrest
    cases m with
    | jsonNonObj => exact absurd rfl hm
    | badJson =>
      refine ⟨?_, ?_⟩
      · simp only [run_session, handle_frame, List.length_cons, ih1]
        omega
      · simp only [run_session, handle_frame, List.map_cons, expected_numbers,
          expected_frame_number, ih2]
    | objNoImage =>
      refine ⟨?_, ?_⟩
      · simp only [run_session, handle_frame, List.length_cons, ih1]
        omega
      · simp only [run_session, handle_frame, List.map_cons, expected_numbers,
          expected_frame_number, ih2]
    | objFrame outcome =>
      cases outcome with
      | error e =>
        refine ⟨?_, ?_⟩
        · simp only [run_session, handle_frame, List.length_cons, ih1]
          omega
        · simp only [run_session, handle_frame, List.map_cons, expected_numbers,
            expected_frame_number, ih2]
      | ok v =>
        obtain ⟨m64, o64, t⟩ := v
        refine ⟨?_, ?_⟩
        · simp only [run_session, handle_frame, List.length_cons, ih1]
          omega
        · simp only [run_session, handle_frame, List.map_cons, expected_numbers,
            expected_frame_number, ih2]

theorem frame_count_and_frame_number_echo_witness :
    (run_session 0 [InMsg.badJson, InMsg.objNoImage,
        InMsg.objFrame (Except.error ("boom")),
        InMsg.objFrame (Except.ok ("m", "o", 3))]).frame_count = 0 + 4 ∧
    (run_session 0 [InMsg.badJson, InMsg.objNoImage,
        InMsg.objFrame (Except.error ("boom")),
        InMsg.objFrame (Except.ok ("m", "o", 3))]).responses.map (fun r => r.frame_number) =
      expected_numbers 0 [InMsg.badJson, InMsg.objNoImage,
        InMsg.objFrame (Except.error ("boom")),
        InMsg.objFrame (Except.ok ("m", "o", 3))] :=
  frame_count_and_frame_number_echo 0
    [InMsg.badJson, InMsg.objNoImage,
     InMsg.objFrame (Except.error ("boom")),
     InMsg.objFrame (Except.ok ("m", "o", 3))] (by decide)

/-- Claim C1 at the failing input: on a valid-JSON non-object first
message (for example the text null) frame_data.get raises AttributeError
outside every per-frame handler, so the session sends no error-tagged
response, the outer except handler ends the session (crashed = true),
and a following well-formed frame is never received or processed; this
contradicts the claim that the loop never exits on a processing
exception. -/
theorem session_crash_on_nonobject_json_eval :
    run_session 0 [InMsg.jsonNonObj, InMsg.objFrame (Except.ok ("m", "o", 1))] =
      ⟨[], 1, true⟩ :=
  rfl

/-- Claim C5 counterexample: at score 0 the sigmoid is exactly one half,
so p times 255 is 127.5; the code truncates to 127 while the claimed
round-to-nearest maps it to the next integer up, 128. -/
theorem postprocess_truncates_not_rounds :
    postprocessPixel 0 = 127 ∧ postprocessPixelSpec 0 = 128 ∧
    postprocessPixel 0 ≠ postprocessPixelSpec 0 := by
  have h1 : postprocessPixel 0 = 127 := by
    unfold postprocessPixel
    rw [sigmoid_zero]
    apply Int.floor_eq_iff.mpr
    constructor <;> norm_num
  have h2 : postprocessPixelSpec 0 = 128 := by
    unfold postprocessPixelSpec
    rw [sigmoid_zero, round_eq]
    apply Int.floor_eq_iff.mpr
    constructor <;> norm_num
  exact ⟨h1, h2, by omega⟩

/-- Amended claim C5: for every score s the code maps p = sigmoid(s) in
(0,1) to the truncation of p times 255 rather than its rounding: the
result lies in [0,254] with no clipping needed, the claimed
round-to-nearest value exceeds it by at most one, and the map is
monotone in the score; a p whose scaled fractional part is at least one
half maps down, not up. -/
theorem postprocess_pixel_floor_bounds_mono (s t : ℝ) (hst : s ≤ t) :
    0 ≤ postprocessPixel s ∧ postprocessPixel s ≤ 254 ∧
    (postprocessPixelSpec s = postprocessPixel s ∨
      postprocessPixelSpec s = postprocessPixel s + 1) ∧
    postprocessPixel s ≤ postprocessPixel t := by
  refine ⟨?_, ?_, ?_, ?_⟩
  · exact Int.le_floor.mpr (by push_cast; nlinarith [sigmoid_pos s])
  · have h1 : sigmoid s * 255 < 255 := by nlinarith [sigmoid_lt_one s]
    have h2 : postprocessPixel s < 255 := Int.floor_lt.mpr (by push_cast; linarith)
    omega
  · exact round_eq_floor_or_succ _
  · exact Int.floor_mono (by nlinarith [sigmoid_mono hst])

theorem postprocess_pixel_floor_bounds_mono_witness :
    0 ≤ postprocessPixel 0 ∧ postprocessPixel 0 ≤ 254 ∧
    (postprocessPixelSpec 0 = postprocessPixel 0 ∨
      postprocessPixelSpec 0 = postprocessPixel 0 + 1) ∧
    postprocessPixel 0 ≤ postprocessPixel 1 :=
  postprocess_pixel_floor_bounds_mono 0 1 (by norm_num)

/-- Claim C4 counterexample: for a concrete 3-channel image whose red and
blue planes differ, a concrete admissible resampling and a concrete
inference engine, the overlays produced by the HTTP-decoded copy and the
streaming-decoded copy of the same bytes differ at pixel (0,0) channel 0
(50 versus 0): the upload path blends the unconverted RGB array while the
streaming path blends its BGR conversion, so the two paths do not yield
identical overlays. -/
theorem decode_paths_overlay_differs :
    (process_image_val c4Resize c4Resize c4Infer (uploadDecode c4Img)).2.pix 0 0 0 = 50 ∧
    (process_image_val c4Resize c4Resize c4Infer (wsDecode c4Img)).2.pix 0 0 0 = 0 := by
  constructor
  · simp [process_image_val, overlay_mask_val, uploadDecode, wsDecode, c4Img,
      c4Resize, swapRB]
    norm_num [round_eq]
    decide
  · simp [process_image_val, overlay_mask_val, uploadDecode, wsDecode, c4Img,
      c4Resize, swapRB]

/-- Amended claim C4: the HTTP upload path decodes to RGB while the
streaming path decodes the same bytes to BGR, and the pipeline converts
assuming BGR, so the two paths yield identical masks and overlays only
when the channel swap is invisible: for every image whose channel-0 and
channel-2 planes coincide the two paths agree for every resampling and
every inference engine, and in general they differ. -/
theorem decode_paths_agree_when_rb_equal (resizeCh resizeMaskCh : ResampleFn)
    (infer : (Fin 3 → Nat → Nat → ℚ) → Nat → Nat → ℝ) (P : ImgV)
    (hRB : ∀ y x, P.pix y x 0 = P.pix y x 2) :
    process_image_val resizeCh resizeMaskCh infer (uploadDecode P) =
      process_image_val resizeCh resizeMaskCh infer (wsDecode P) := by
  have hP : wsDecode P = uploadDecode P := by
    cases P with
    | mk h w pix =>
      show ImgV.mk h w (fun y x c => pix y x (swapRB c)) = ImgV.mk h w pix
      have hfun : (fun y x c => pix y x (swapRB c)) = pix := by
        funext y x c
        fin_cases c
        · exact (hRB y x).symm
        · rfl
        · exact hRB y x
      rw [hfun]
  rw [hP]

theorem decode_paths_agree_when_rb_equal_witness :
    process_image_val c4Resize c4Resize c4Infer (uploadDecode c4ImgRB) =
      process_image_val c4Resize c4Resize c4Infer (wsDecode c4ImgRB) :=
  decode_paths_agree_when_rb_equal c4Resize c4Resize c4Infer c4ImgRB (fun _ _ => rfl)

end KidneySeg
